import Mathlib

/-!
Verification of the Tether topic-convention and plug-definition layer.

The development shallowly embeds the Rust sources:
- Lib: base_agent/rs/src/lib.rs (monolithic agent, builder, parse/build helpers)
- Options: base_agent/rs/src/plugs/options.rs (variant-aware builder with
  role/id/topic override precedence); its dependencies (three_part_topic.rs,
  definitions.rs) are modelled from the spec where noted.
- Receive: utilities/tether-utils/src/tether_receive.rs (plug-name mapping).

Strings are modelled as lists of characters; Rust split on a char is
List.splitOn; panics are modelled as a distinguished outcome; the MQTT
client collaborator (subscribe / publish / connect) is passed in as an
explicit function parameter, so that theorems can quantify over transport
behaviour.
-/

namespace Tether

/-- Strings of the model: lists of characters. -/
abbrev Str := List Char

/-- Coerce a Lean string literal into the model representation. -/
def str (s : String) : Str := s.data

/-- The topic separator character. -/
def slash : Char := '/'

namespace Lib

/-- Embeds PlugOptionsCommon (lib.rs lines 10-15). -/
structure PlugOptionsCommon where
  name : Tether.Str
  topic : Option Tether.Str
  qos : Option Int
deriving DecidableEq

/-- Embeds PlugOptionsCommon::new (lib.rs lines 17-25). -/
def PlugOptionsCommon.new (name : Tether.Str) : PlugOptionsCommon :=
  { name := name, topic := none, qos := none }

/-- Embeds PlugDefinitionCommon (lib.rs lines 27-32). -/
structure PlugDefinitionCommon where
  name : Tether.Str
  topic : Tether.Str
  qos : Int
deriving DecidableEq

/-- Embeds InputPlugOptions (lib.rs lines 34-36). -/
structure InputPlugOptions where
  common : PlugOptionsCommon
deriving DecidableEq

/-- Embeds OutputPlugOptions (lib.rs lines 38-41). -/
structure OutputPlugOptions where
  common : PlugOptionsCommon
  retain : Option Bool
deriving DecidableEq

/-- Embeds the PlugOptionsBuilder enum (lib.rs lines 46-49). -/
inductive PlugOptionsBuilder where
  | InputPlugOptions (opts : Lib.InputPlugOptions)
  | OutputPlugOptions (opts : Lib.OutputPlugOptions)
deriving DecidableEq

/-- Embeds InputPlugDefinition (lib.rs lines 51-54). -/
structure InputPlugDefinition where
  common : PlugDefinitionCommon
deriving DecidableEq

/-- Embeds OutputPlugDefinition (lib.rs lines 56-60). -/
structure OutputPlugDefinition where
  common : PlugDefinitionCommon
  retain : Bool
deriving DecidableEq

/-- Embeds the PlugDefinition enum (lib.rs lines 62-66). -/
inductive PlugDefinition where
  | InputPlugDefinition (plug : Lib.InputPlugDefinition)
  | OutputPlugDefinition (plug : Lib.OutputPlugDefinition)
deriving DecidableEq

/-- Embeds PlugDefinition::common (lib.rs lines 69-74). -/
def PlugDefinition.common : PlugDefinition → PlugDefinitionCommon
  | .InputPlugDefinition plug => plug.common
  | .OutputPlugDefinition plug => plug.common

/-- Models a write through the mutable reference returned by the public
method PlugDefinition::common_mut (lib.rs lines 76-81): the caller can
assign a whole new PlugDefinitionCommon through the returned reference,
while any field outside the common part (the output retain flag) is not
reachable through it. -/
def PlugDefinition.set_common : PlugDefinition → PlugDefinitionCommon → PlugDefinition
  | .InputPlugDefinition _, c => .InputPlugDefinition { common := c }
  | .OutputPlugDefinition plug, c => .OutputPlugDefinition { plug with common := c }

/-- Embeds PlugDefinition::name (lib.rs lines 83-85). -/
def PlugDefinition.name (d : PlugDefinition) : Tether.Str := d.common.name

/-- Embeds PlugDefinition::topic (lib.rs lines 87-89). -/
def PlugDefinition.topic (d : PlugDefinition) : Tether.Str := d.common.topic

/-- Observation helper: the retain flag of an output definition, none for an
input definition. Used to state what common_mut cannot reach. -/
def PlugDefinition.retain_flag : PlugDefinition → Option Bool
  | .InputPlugDefinition _ => none
  | .OutputPlugDefinition plug => some plug.retain

/-- Embeds PlugOptionsBuilder::create_input (lib.rs lines 100-104). -/
def PlugOptionsBuilder.create_input (name : Tether.Str) : PlugOptionsBuilder :=
  .InputPlugOptions { common := PlugOptionsCommon.new name }

/-- Embeds PlugOptionsBuilder::create_output (lib.rs lines 106-111);
note the retain field starts out as Some(false). -/
def PlugOptionsBuilder.create_output (name : Tether.Str) : PlugOptionsBuilder :=
  .OutputPlugOptions { common := PlugOptionsCommon.new name, retain := some false }

/-- Embeds PlugOptionsBuilder::qos (lib.rs lines 113-116), which writes
through common() on either variant. -/
def PlugOptionsBuilder.qos (builder : PlugOptionsBuilder) (qos : Int) : PlugOptionsBuilder :=
  match builder with
  | .InputPlugOptions plug =>
      .InputPlugOptions { common := { plug.common with qos := some qos } }
  | .OutputPlugOptions plug =>
      .OutputPlugOptions { plug with common := { plug.common with qos := some qos } }

/-- Embeds PlugOptionsBuilder::topic (lib.rs lines 118-121). -/
def PlugOptionsBuilder.topic (builder : PlugOptionsBuilder) (override_topic : Tether.Str) :
    PlugOptionsBuilder :=
  match builder with
  | .InputPlugOptions plug =>
      .InputPlugOptions { common := { plug.common with topic := some override_topic } }
  | .OutputPlugOptions plug =>
      .OutputPlugOptions { plug with common := { plug.common with topic := some override_topic } }

/-- Embeds PlugOptionsBuilder::retain (lib.rs lines 123-135). On the input
variant the source panics; the panic is modelled as none. -/
def PlugOptionsBuilder.retain : PlugOptionsBuilder → Bool → Option PlugOptionsBuilder
  | .InputPlugOptions _, _ => none
  | .OutputPlugOptions plug, should_retain =>
      some (.OutputPlugOptions { common := plug.common, retain := some should_retain })

/-- Embeds parse_plug_name (lib.rs lines 421-427): split on the slash and
take the segment at index 2, if any. -/
def parse_plug_name (topic : Tether.Str) : Option Tether.Str :=
  let parts := topic.splitOn Tether.slash
  parts.get? 2

/-- Embeds parse_agent_id (lib.rs lines 429-435). -/
def parse_agent_id (topic : Tether.Str) : Option Tether.Str :=
  let parts := topic.splitOn Tether.slash
  parts.get? 1

/-- Embeds parse_agent_role (lib.rs lines 437-443). -/
def parse_agent_role (topic : Tether.Str) : Option Tether.Str :=
  let parts := topic.splitOn Tether.slash
  parts.get? 0

/-- Embeds build_topic (lib.rs lines 445-447). -/
def build_topic (role id plug_name : Tether.Str) : Tether.Str :=
  role ++ [Tether.slash] ++ id ++ [Tether.slash] ++ plug_name

/-- Embeds default_subscribe_topic (lib.rs lines 449-451). -/
def default_subscribe_topic (plug_name : Tether.Str) : Tether.Str :=
  Tether.str "+/+/" ++ plug_name

/-- Abstract error value reported by the MQTT client collaborator. -/
structure MqttError where
  code : Nat
deriving DecidableEq

/-- An inbound MQTT message: topic plus payload bytes. -/
structure Message where
  topic : Tether.Str
  payload : List Nat
deriving DecidableEq

/-- Models one step of receiver.try_iter().find_map(m := m) over the queue of
Option(Message) entries deposited by the client: entries are popped without
blocking until the first Some, which is returned together with the rest of
the queue. -/
def drain_first : List (Option Message) → Option Message × List (Option Message)
  | [] => (none, [])
  | none :: rest => drain_first rest
  | some m :: rest => (some m, rest)

/-- Embeds TetherAgent::check_messages (lib.rs lines 342-353) as a function
of the inbound queue; it returns the result visible to the caller and the
remaining queue. If a message is dequeued but parse_plug_name fails on its
topic, the source returns None (the message has still been consumed). -/
def check_messages (queue : List (Option Message)) :
    Option (Tether.Str × Message) × List (Option Message) :=
  match drain_first queue with
  | (some message, rest) =>
    match parse_plug_name message.topic with
    | some plug_name => (some (plug_name, message), rest)
    | none => (none, rest)
  | (none, rest) => (none, rest)

/-- Embeds the TetherAgent state (lib.rs lines 185-191); the client and
receiver handles are modelled separately as function parameters and the
explicit queue. -/
structure TetherAgent where
  role : Tether.Str
  id : Tether.Str
  broker_uri : Tether.Str
deriving DecidableEq

/-- Embeds PlugOptionsBuilder::build (lib.rs lines 137-182). The transport
subscribe primitive is a parameter; output builds never invoke it. -/
def PlugOptionsBuilder.build (builder : PlugOptionsBuilder) (tether_agent : TetherAgent)
    (subscribe : Tether.Str → Int → Except MqttError Unit) :
    Except MqttError PlugDefinition :=
  match builder with
  | .InputPlugOptions plug =>
    let final_topic := plug.common.topic.getD (default_subscribe_topic plug.common.name)
    let final_qos := plug.common.qos.getD 1
    match subscribe final_topic final_qos with
    | .ok _ =>
        .ok (.InputPlugDefinition
          { common := { name := plug.common.name, topic := final_topic, qos := final_qos } })
    | .error e => .error e
  | .OutputPlugOptions plug =>
    let final_topic := plug.common.topic.getD
      (build_topic tether_agent.role tether_agent.id plug.common.name)
    let final_qos := plug.common.qos.getD 1
    .ok (.OutputPlugDefinition
      { common := { name := plug.common.name, topic := final_topic, qos := final_qos },
        retain := plug.retain.getD false })

/-- An outbound MQTT message as assembled by MessageBuilder in publish. -/
structure OutMessage where
  topic : Tether.Str
  payload : List Nat
  retained : Bool
  qos : Int
deriving DecidableEq

/-- Outcome of a publish call; the source panic on an input definition is the
distinguished first constructor. -/
inductive PublishOutcome where
  | panicked
  | ok
  | error (e : MqttError)
deriving DecidableEq

/-- Embeds TetherAgent::publish (lib.rs lines 357-382). The transport send
primitive is a parameter; the second component of the result lists every
message handed to it, so a run that constructs and sends nothing returns an
empty list there. -/
def publish (plug_definition : PlugDefinition) (payload : Option (List Nat))
    (send : OutMessage → Except MqttError Unit) : PublishOutcome × List OutMessage :=
  match plug_definition with
  | .InputPlugDefinition _ => (.panicked, [])
  | .OutputPlugDefinition definition =>
    let message : OutMessage :=
      { topic := definition.common.topic
        payload := payload.getD []
        retained := definition.retain
        qos := definition.common.qos }
    match send message with
    | .ok _ => (.ok, [message])
    | .error e => (.error e, [message])

/-- Embeds the TIMEOUT_SECONDS constant (lib.rs line 8). -/
def TIMEOUT_SECONDS : Nat := 10

/-- Connection options assembled by TetherAgent::connect. -/
structure ConnectOptions where
  username : Tether.Str
  password : Tether.Str
  connect_timeout : Nat
  keep_alive_interval : Nat
  clean_session : Bool
deriving DecidableEq

/-- Embeds the TetherAgentOptionsBuilder state (lib.rs lines 193-202). -/
structure TetherAgentOptionsBuilder where
  role : Tether.Str
  id : Option Tether.Str
  host : Option Tether.Str
  port : Option Nat
  username : Option Tether.Str
  password : Option Tether.Str
  auto_connect : Bool
deriving DecidableEq

/-- Embeds TetherAgentOptionsBuilder::new (lib.rs lines 207-217). -/
def TetherAgentOptionsBuilder.new (role : Tether.Str) : TetherAgentOptionsBuilder :=
  { role := role, id := none, host := none, port := none,
    username := none, password := none, auto_connect := true }

/-- Embeds TetherAgent::connect (lib.rs lines 312-339): assemble the
connection options (default credentials, shared timeout and keep-alive,
clean session) and hand them to the client connect primitive. -/
def connect (options : TetherAgentOptionsBuilder)
    (client_connect : ConnectOptions → Except MqttError Unit) : Except MqttError Unit :=
  let username := options.username.getD (Tether.str "tether")
  let password := options.password.getD (Tether.str "sp_ceB0ss!")
  client_connect
    { username := username, password := password,
      connect_timeout := TIMEOUT_SECONDS, keep_alive_interval := TIMEOUT_SECONDS,
      clean_session := true }

/-- Embeds TetherAgentOptionsBuilder::build (lib.rs lines 249-285): derive
the broker URI from host/port defaults, construct the agent with id
defaulting to "any", and auto-connect unless disabled. -/
def TetherAgentOptionsBuilder.build (self : TetherAgentOptionsBuilder)
    (client_connect : ConnectOptions → Except MqttError Unit) :
    Except MqttError TetherAgent :=
  let broker_host := self.host.getD (Tether.str "localhost")
  let broker_port := self.port.getD 1883
  let broker_uri :=
    Tether.str "tcp://" ++ broker_host ++ Tether.str ":" ++ (Nat.repr broker_port).data
  let agent : TetherAgent :=
    { role := self.role, id := self.id.getD (Tether.str "any"), broker_uri := broker_uri }
  if self.auto_connect then
    match connect self client_connect with
    | .ok _ => .ok agent
    | .error e => .error e
  else
    .ok agent

end Lib

namespace Options

/-- Modelled from the spec: the error produced when a topic fails three-part
parsing (three_part_topic.rs is not under src/). -/
inductive TopicError where
  | MalformedTopic
deriving DecidableEq

/-- Modelled from the spec: ThreePartTopic, the ordered triple of role, id
and plug name segments (three_part_topic.rs is not under src/). -/
structure ThreePartTopic where
  role : Tether.Str
  id : Tether.Str
  plug_name : Tether.Str
deriving DecidableEq

/-- Modelled from the spec: parse succeeds iff splitting on the slash yields
exactly 3 non-empty segments, otherwise MalformedTopic
(three_part_topic.rs is not under src/). -/
def ThreePartTopic.parse (topic : Tether.Str) : Except TopicError ThreePartTopic :=
  match topic.splitOn Tether.slash with
  | [r, i, p] =>
    if r ≠ [] ∧ i ≠ [] ∧ p ≠ [] then
      .ok { role := r, id := i, plug_name := p }
    else
      .error .MalformedTopic
  | _ => .error .MalformedTopic

/-- Modelled from the spec: new_for_subscribe defaults role and id to the
single-level wildcard, the plug name is fixed (three_part_topic.rs is not
under src/). -/
def ThreePartTopic.new_for_subscribe (role : Option Tether.Str) (id : Option Tether.Str)
    (plug_name : Tether.Str) : ThreePartTopic :=
  { role := role.getD (Tether.str "+"), id := id.getD (Tether.str "+"),
    plug_name := plug_name }

/-- Modelled from the spec: new_for_publish defaults role and id to the own
identity of the agent (three_part_topic.rs is not under src/). -/
def ThreePartTopic.new_for_publish (role : Option Tether.Str) (id : Option Tether.Str)
    (plug_name : Tether.Str) (agent : Lib.TetherAgent) : ThreePartTopic :=
  { role := role.getD agent.role, id := id.getD agent.id, plug_name := plug_name }

/-- Modelled from the spec: toWireString joins the three segments with the
slash (three_part_topic.rs is not under src/). -/
def ThreePartTopic.to_wire (t : ThreePartTopic) : Tether.Str :=
  t.role ++ [Tether.slash] ++ t.id ++ [Tether.slash] ++ t.plug_name

/-- Modelled from the spec: the TopicSpec sum type, Tether(ThreePartTopic) or
Custom(string); declared in the newer lib.rs which is not under src/ but
referenced by options.rs and tether_receive.rs. -/
inductive TetherOrCustomTopic where
  | Tether (t : ThreePartTopic)
  | Custom (s : Tether.Str)
deriving DecidableEq

/-- Modelled from the spec: the final topic string carried by a topic spec;
a Custom value is used verbatim, a Tether value is materialized through
toWireString (definitions.rs is not under src/). -/
def TetherOrCustomTopic.topic : TetherOrCustomTopic → Tether.Str
  | .Tether t => t.to_wire
  | .Custom s => s

/-- Modelled from the spec: InputPlugDefinition with name, topic spec and
qos (definitions.rs is not under src/). -/
structure InputPlugDefinition where
  name : Tether.Str
  topic_spec : TetherOrCustomTopic
  qos : Int
deriving DecidableEq

/-- Modelled from the spec: the InputPlugDefinition constructor defaults qos
to 1 when unset (definitions.rs is not under src/). -/
def InputPlugDefinition.new (name : Tether.Str) (tpt : TetherOrCustomTopic)
    (qos : Option Int) : InputPlugDefinition :=
  { name := name, topic_spec := tpt, qos := qos.getD 1 }

/-- Modelled from the spec: topic accessor of an input definition
(definitions.rs is not under src/). -/
def InputPlugDefinition.topic (d : InputPlugDefinition) : Tether.Str := d.topic_spec.topic

/-- Modelled from the spec: OutputPlugDefinition with name, topic spec, qos
and retain flag (definitions.rs is not under src/). -/
structure OutputPlugDefinition where
  name : Tether.Str
  topic_spec : TetherOrCustomTopic
  qos : Int
  retain : Bool
deriving DecidableEq

/-- Modelled from the spec: the OutputPlugDefinition constructor defaults
qos to 1 and retain to false when unset (definitions.rs is not under
src/). -/
def OutputPlugDefinition.new (name : Tether.Str) (tpt : TetherOrCustomTopic)
    (qos : Option Int) (retain : Option Bool) : OutputPlugDefinition :=
  { name := name, topic_spec := tpt, qos := qos.getD 1, retain := retain.getD false }

/-- Modelled from the spec: topic accessor of an output definition
(definitions.rs is not under src/). -/
def OutputPlugDefinition.topic (d : OutputPlugDefinition) : Tether.Str := d.topic_spec.topic

/-- Modelled from the spec: the PlugDefinition sum type of the newer
architecture (definitions.rs is not under src/). -/
inductive PlugDefinition where
  | InputPlug (d : Options.InputPlugDefinition)
  | OutputPlug (d : Options.OutputPlugDefinition)
deriving DecidableEq

/-- Modelled from the spec: topic accessor of a plug definition
(definitions.rs is not under src/). -/
def PlugDefinition.topic : PlugDefinition → Tether.Str
  | .InputPlug d => d.topic
  | .OutputPlug d => d.topic

/-- Log severities of the log crate macros used by options.rs. -/
inductive LogLevel where
  | debug
  | info
  | warn
  | error
deriving DecidableEq

/-- A log event: severity plus message text. -/
abbrev LogEntry := LogLevel × Tether.Str

/-- The message logged by options.rs when a role or id override is supplied
while a full topic override is already present (options.rs lines 71, 78,
93, 100); the source emits it at error severity. -/
def precedence_message : Tether.Str :=
  Tether.str "Override topic was also provided; this will take precedence"

/-- The message logged by options.rs when retain is called on an input
builder (options.rs line 137); the source emits it at error severity and
continues. -/
def retain_on_input_message : Tether.Str :=
  Tether.str "Cannot set retain flag on Input Plug / subscription"

/-- Embeds InputPlugOptions (options.rs lines 9-15). -/
structure InputPlugOptions where
  plug_name : Tether.Str
  qos : Option Int
  override_subscribe_role : Option Tether.Str
  override_subscribe_id : Option Tether.Str
  override_topic : Option Tether.Str
deriving DecidableEq

/-- Embeds OutputPlugOptions (options.rs lines 17-24). -/
structure OutputPlugOptions where
  plug_name : Tether.Str
  qos : Option Int
  override_publish_role : Option Tether.Str
  override_publish_id : Option Tether.Str
  override_topic : Option Tether.Str
  retain : Option Bool
deriving DecidableEq

/-- Embeds the PlugOptionsBuilder enum (options.rs lines 30-33). -/
inductive PlugOptionsBuilder where
  | InputPlugOptions (opts : Options.InputPlugOptions)
  | OutputPlugOptions (opts : Options.OutputPlugOptions)
deriving DecidableEq

/-- Embeds PlugOptionsBuilder::create_input (options.rs lines 36-44). -/
def PlugOptionsBuilder.create_input (name : Tether.Str) : PlugOptionsBuilder :=
  .InputPlugOptions
    { plug_name := name, qos := none, override_subscribe_role := none,
      override_subscribe_id := none, override_topic := none }

/-- Embeds PlugOptionsBuilder::create_output (options.rs lines 46-55);
unlike the older lib.rs builder, retain starts out as None. -/
def PlugOptionsBuilder.create_output (name : Tether.Str) : PlugOptionsBuilder :=
  .OutputPlugOptions
    { plug_name := name, qos := none, override_publish_role := none,
      override_publish_id := none, override_topic := none, retain := none }

/-- Embeds PlugOptionsBuilder::qos (options.rs lines 57-63). -/
def PlugOptionsBuilder.qos (self : PlugOptionsBuilder) (qos : Int) :
    PlugOptionsBuilder × List LogEntry :=
  match self with
  | .InputPlugOptions s => (.InputPlugOptions { s with qos := some qos }, [])
  | .OutputPlugOptions s => (.OutputPlugOptions { s with qos := some qos }, [])

/-- Embeds PlugOptionsBuilder::role (options.rs lines 67-85): when a full
topic override is already present the role override is dropped and an
error-severity message is logged; otherwise the override is stored
silently. -/
def PlugOptionsBuilder.role (self : PlugOptionsBuilder) (role : Option Tether.Str) :
    PlugOptionsBuilder × List LogEntry :=
  match self with
  | .InputPlugOptions s =>
    if s.override_topic.isSome then
      (.InputPlugOptions s, [(LogLevel.error, precedence_message)])
    else
      (.InputPlugOptions { s with override_subscribe_role := role }, [])
  | .OutputPlugOptions s =>
    if s.override_topic.isSome then
      (.OutputPlugOptions s, [(LogLevel.error, precedence_message)])
    else
      (.OutputPlugOptions { s with override_publish_role := role }, [])

/-- Embeds PlugOptionsBuilder::id (options.rs lines 89-107), structured
exactly like role. -/
def PlugOptionsBuilder.id (self : PlugOptionsBuilder) (id : Option Tether.Str) :
    PlugOptionsBuilder × List LogEntry :=
  match self with
  | .InputPlugOptions s =>
    if s.override_topic.isSome then
      (.InputPlugOptions s, [(LogLevel.error, precedence_message)])
    else
      (.InputPlugOptions { s with override_subscribe_id := id }, [])
  | .OutputPlugOptions s =>
    if s.override_topic.isSome then
      (.OutputPlugOptions s, [(LogLevel.error, precedence_message)])
    else
      (.OutputPlugOptions { s with override_publish_id := id }, [])

/-- Embeds PlugOptionsBuilder::topic (options.rs lines 114-132): the custom
topic is checked against the three-part convention advisory-only (info on
success, warn on failure) and stored unconditionally on either variant. -/
def PlugOptionsBuilder.topic (self : PlugOptionsBuilder) (override_topic : Tether.Str) :
    PlugOptionsBuilder × List LogEntry :=
  let validation_log : List LogEntry :=
    match ThreePartTopic.parse override_topic with
    | .ok _ => [(LogLevel.info, Tether.str "Custom topic passes Three Part Topic validation")]
    | .error _ =>
      [(LogLevel.warn,
        Tether.str "Could not convert into Tether 3 Part Topic; presumably you know what you are doing!")]
  match self with
  | .InputPlugOptions s =>
    (.InputPlugOptions { s with override_topic := some override_topic }, validation_log)
  | .OutputPlugOptions s =>
    (.OutputPlugOptions { s with override_topic := some override_topic }, validation_log)

/-- Embeds PlugOptionsBuilder::retain (options.rs lines 134-144): on an
input builder the source logs an error-severity message and returns the
builder unchanged (no panic); on an output builder it stores the flag. -/
def PlugOptionsBuilder.retain (self : PlugOptionsBuilder) (should_retain : Bool) :
    PlugOptionsBuilder × List LogEntry :=
  match self with
  | .InputPlugOptions s =>
    (.InputPlugOptions s, [(LogLevel.error, retain_on_input_message)])
  | .OutputPlugOptions s =>
    (.OutputPlugOptions { s with retain := some should_retain }, [])

/-- Embeds PlugOptionsBuilder::build (options.rs lines 148-193). The
transport subscribe primitive is a parameter; output builds never invoke
it. A present topic override becomes a Custom topic spec, otherwise the
role/id overrides (or defaults) are combined through the three-part
convention. -/
def PlugOptionsBuilder.build (self : PlugOptionsBuilder) (tether_agent : Lib.TetherAgent)
    (subscribe : Tether.Str → Int → Except Lib.MqttError Unit) :
    Except Lib.MqttError PlugDefinition :=
  match self with
  | .InputPlugOptions plug_options =>
    let tpt : TetherOrCustomTopic :=
      match plug_options.override_topic with
      | some custom => .Custom custom
      | none =>
        .Tether (ThreePartTopic.new_for_subscribe plug_options.override_subscribe_role
          plug_options.override_subscribe_id plug_options.plug_name)
    let plug_definition := InputPlugDefinition.new plug_options.plug_name tpt plug_options.qos
    match subscribe plug_definition.topic plug_definition.qos with
    | .ok _ => .ok (.InputPlug plug_definition)
    | .error e => .error e
  | .OutputPlugOptions plug_options =>
    let tpt : TetherOrCustomTopic :=
      match plug_options.override_topic with
      | some custom => .Custom custom
      | none =>
        .Tether (ThreePartTopic.new_for_publish plug_options.override_publish_role
          plug_options.override_publish_id plug_options.plug_name tether_agent)
    .ok (.OutputPlug (OutputPlugDefinition.new plug_options.plug_name tpt
      plug_options.qos plug_options.retain))

end Options

namespace Receive

/-- Embeds the plug-name mapping of the receive utility
(tether_receive.rs lines 65-68): a Custom classification is rendered as the
string "unknown", a Tether classification as its plug name. -/
def plug_name_for : Options.TetherOrCustomTopic → Tether.Str
  | .Custom _ => Tether.str "unknown"
  | .Tether tpt => tpt.plug_name

end Receive

/-! Concrete sample values used by counterexamples and witnesses. -/

/-- An inbound message whose topic does not split into three segments. -/
def weird_message : Lib.Message :=
  { topic := Tether.str "weird-topic", payload := [1, 2, 3] }

/-- A second inbound message with a one-segment topic, used for the claim
about drain counts. -/
def weird_message2 : Lib.Message :=
  { topic := Tether.str "weird-topic", payload := [7] }

/-- An inbound message on a convention-conformant topic. -/
def status_message : Lib.Message :=
  { topic := Tether.str "robot/arm1/status", payload := [4, 5] }

/-- A sample agent with role robot and id arm1. -/
def sample_agent : Lib.TetherAgent :=
  { role := Tether.str "robot", id := Tether.str "arm1",
    broker_uri := Tether.str "tcp://localhost:1883" }

/-! Claim theorems. -/

/-- C2 counterexample: the topic string made of three slashes splits into
four segments, every one of them empty, yet parse_plug_name succeeds and
returns the (empty) segment at index 2 — the claim as stated requires this
parse to fail. -/
theorem c2_counterexample :
    Lib.parse_plug_name (Tether.str "///") = some [] ∧
    ((Tether.str "///").splitOn Tether.slash).length = 4 := by
  constructor <;> rfl

/-- C2 (amended): parsing through parse_plug_name succeeds iff splitting the
topic on the slash yields at least 3 segments; segments may be empty, and
any extra segments beyond the third are tolerated (the plug name is the
segment at index 2). -/
theorem c2_amended (topic : Tether.Str) :
    (Lib.parse_plug_name topic).isSome ↔ 3 ≤ (topic.splitOn Tether.slash).length := by
  unfold Lib.parse_plug_name
  rw [Option.isSome_iff_ne_none, ne_eq, List.get?_eq_getElem?, List.getElem?_eq_none_iff]
  omega

/-- C3 counterexample: in the plugs/options.rs builder, calling retain on a
freshly created input builder is not an abort: the call returns normally,
leaves the builder unchanged, and merely emits an error-severity log
line. -/
theorem c3_counterexample :
    Options.PlugOptionsBuilder.retain
        (Options.PlugOptionsBuilder.create_input (Tether.str "all")) true =
      (Options.PlugOptionsBuilder.create_input (Tether.str "all"),
       [(Options.LogLevel.error, Options.retain_on_input_message)]) := rfl

/-- C3 (amended): in the lib.rs builder, retain on an input builder panics
(modelled as none) for every configuration and flag value; in the
plugs/options.rs builder, retain on an input builder is not fatal — it
returns the builder unchanged and logs an error-severity message. -/
theorem c3_amended (opts : Lib.InputPlugOptions) (opts2 : Options.InputPlugOptions) (b : Bool) :
    Lib.PlugOptionsBuilder.retain (.InputPlugOptions opts) b = none ∧
    Options.PlugOptionsBuilder.retain (.InputPlugOptions opts2) b =
      (.InputPlugOptions opts2, [(Options.LogLevel.error, Options.retain_on_input_message)]) :=
  ⟨rfl, rfl⟩

/-- C1 counterexample: an inbound message on the one-segment topic
weird-topic is dequeued by check_messages, which then returns no result at
all: the message is consumed but never delivered to the caller, instead of
being delivered with an Unknown classification as the claim states. -/
theorem c1_counterexample :
    Lib.check_messages [some Tether.weird_message] = (none, []) := rfl

/-- C1 (amended): check_messages always consumes the dequeued message; when
its topic splits into fewer than three segments the call returns none (the
message is dropped, not delivered), and when the topic splits into at
least three segments the message is delivered classified by the segment at
index 2. -/
theorem c1_amended (m : Lib.Message) (rest : List (Option Lib.Message)) :
    (Lib.check_messages (some m :: rest)).snd = rest ∧
    ((m.topic.splitOn Tether.slash).length < 3 →
      (Lib.check_messages (some m :: rest)).fst = none) ∧
    (3 ≤ (m.topic.splitOn Tether.slash).length →
      (Lib.check_messages (some m :: rest)).fst =
        some ((m.topic.splitOn Tether.slash).getD 2 [], m)) := by
  rcases hp : Lib.parse_plug_name m.topic with _ | p
  · have hlen : (m.topic.splitOn Tether.slash).length ≤ 2 := by
      have h := hp
      unfold Lib.parse_plug_name at h
      rw [List.get?_eq_getElem?, List.getElem?_eq_none_iff] at h
      omega
    refine ⟨?_, fun _ => ?_, fun h3 => absurd h3 (by omega)⟩ <;>
      simp [Lib.check_messages, Lib.drain_first, hp]
  · have h := hp
    unfold Lib.parse_plug_name at h
    rw [List.get?_eq_getElem?] at h
    obtain ⟨hlt, hval⟩ := List.getElem?_eq_some_iff.mp h
    refine ⟨?_, fun h3 => absurd hlt (by omega), fun _ => ?_⟩ <;>
      simp [Lib.check_messages, Lib.drain_first, hp, h]

/-- C1 amended witness: the amended statement evaluated at a dropped
one-segment message and at a delivered three-segment message. -/
theorem c1_amended_witness :
    (Lib.check_messages [some Tether.weird_message]).fst = none ∧
    (Lib.check_messages [some Tether.status_message]).fst =
      some (Tether.str "status", Tether.status_message) := by
  refine ⟨(c1_amended Tether.weird_message []).2.1 (by decide), ?_⟩
  exact ((c1_amended Tether.status_message []).2.2 (by decide)).trans (by decide)

/-- The number of actual messages waiting in a queue of optional entries. -/
def Lib.pending (queue : List (Option Lib.Message)) : Nat :=
  (queue.filterMap id).length

/-- Helper: one drain step removes exactly one waiting message (none when
the queue holds none). -/
theorem Lib.pending_drain_first (queue : List (Option Lib.Message)) :
    Lib.pending (Lib.drain_first queue).snd = Lib.pending queue - 1 := by
  induction queue with
  | nil => rfl
  | cons head rest ih =>
    cases head with
    | none => simpa [Lib.drain_first, Lib.pending] using ih
    | some m => simp [Lib.drain_first, Lib.pending]

/-- Helper: a drain step yields nothing only on a queue with no waiting
message. -/
theorem Lib.drain_first_none (queue : List (Option Lib.Message))
    (h : (Lib.drain_first queue).fst = none) : Lib.pending queue = 0 := by
  induction queue with
  | nil => rfl
  | cons head rest ih =>
    cases head with
    | none =>
      rw [show Lib.drain_first (none :: rest) = Lib.drain_first rest from rfl] at h
      simpa [Lib.pending] using ih h
    | some m => simp [Lib.drain_first] at h

/-- Helper: a drained message comes from the queue. -/
theorem Lib.drain_first_some_mem (queue : List (Option Lib.Message)) (m : Lib.Message)
    (h : (Lib.drain_first queue).fst = some m) : some m ∈ queue := by
  induction queue with
  | nil => simp [Lib.drain_first] at h
  | cons head rest ih =>
    cases head with
    | none =>
      rw [show Lib.drain_first (none :: rest) = Lib.drain_first rest from rfl] at h
      exact List.mem_cons_of_mem _ (ih h)
    | some x =>
      simp [Lib.drain_first] at h
      simp [h]

/-- Helper: check_messages leaves behind exactly the queue left by the
single drain step, whether or not the topic parsed. -/
theorem Lib.check_messages_snd (queue : List (Option Lib.Message)) :
    (Lib.check_messages queue).snd = (Lib.drain_first queue).snd := by
  unfold Lib.check_messages
  rcases hd : Lib.drain_first queue with ⟨res, rest⟩
  cases res with
  | none => rfl
  | some m =>
    cases hp : Lib.parse_plug_name m.topic <;> simp [hp]

/-- C4 counterexample: a queue holding exactly one message (on a
one-segment topic) is fully drained by a single call that returns no
message at all — against the claim that each of the N draining calls
returns one message. -/
theorem c4_counterexample :
    (Lib.check_messages [some Tether.weird_message2]).fst = none ∧
    (Lib.check_messages [some Tether.weird_message2]).snd = [] := ⟨rfl, rfl⟩

/-- C4 (amended): a call on the empty queue returns none immediately; every
call consumes exactly one waiting message when one exists (so N calls
drain N messages), but a call only returns a message when the topic of the
consumed message splits into at least three segments — a call that drains
a message with a shorter topic returns none while still consuming it. -/
theorem c4_amended :
    Lib.check_messages [] = (none, []) ∧
    (∀ queue, Lib.pending (Lib.check_messages queue).snd = Lib.pending queue - 1) ∧
    (∀ queue, 0 < Lib.pending queue →
      (∀ m, some m ∈ queue → 3 ≤ (m.topic.splitOn Tether.slash).length) →
      (Lib.check_messages queue).fst.isSome) := by
  refine ⟨rfl, fun queue => ?_, fun queue hpos hall => ?_⟩
  · rw [Lib.check_messages_snd, Lib.pending_drain_first]
  · rcases hd : (Lib.drain_first queue).fst with _ | m
    · exact absurd (Lib.drain_first_none queue hd) (by omega)
    · have hlen := hall m (Lib.drain_first_some_mem queue m hd)
      have hsome : (Lib.parse_plug_name m.topic).isSome := by
        unfold Lib.parse_plug_name
        rw [Option.isSome_iff_ne_none, ne_eq, List.get?_eq_getElem?,
          List.getElem?_eq_none_iff]
        omega
      rcases hp : Lib.parse_plug_name m.topic with _ | p
      · rw [hp] at hsome; simp at hsome
      · unfold Lib.check_messages
        rcases hdr : Lib.drain_first queue with ⟨res, rest⟩
        rw [hdr] at hd
        simp only at hd
        subst hd
        simp [hp]

/-- C4 amended witness: the amended statement evaluated concretely — a call
on a singleton queue holding a well-topiced message returns a message. -/
theorem c4_amended_witness :
    (Lib.check_messages [some Tether.status_message]).fst.isSome := by
  refine c4_amended.2.2 [some Tether.status_message] (by decide) ?_
  intro m hm
  have hm2 : m = Tether.status_message := by simpa using hm
  subst hm2
  decide

/-- C7: publish called with an input-plug definition panics for every
payload and every transport send behaviour, and hands no message to the
transport. -/
theorem c7_publish_input_panics (plug : Lib.InputPlugDefinition)
    (payload : Option (List Nat)) (send : Lib.OutMessage → Except Lib.MqttError Unit) :
    Lib.publish (.InputPlugDefinition plug) payload send = (.panicked, []) := rfl

/-- C5 counterexample: configuring a role override after a full topic
override is reported through an error-severity log line, not a warning —
the source uses the error macro for the precedence message. -/
theorem c5_counterexample :
    (Options.PlugOptionsBuilder.role
        (Options.PlugOptionsBuilder.topic
          (Options.PlugOptionsBuilder.create_input (Tether.str "all"))
          (Tether.str "one/two/three")).fst
        (some (Tether.str "newrole"))).snd =
      [(Options.LogLevel.error, Options.precedence_message)] := rfl

/-- C5 (amended): a builder configured with both a full topic override and
role and id overrides resolves, in either call order and for both
variants, to the full topic override, and the build does not fail because
of the ignored overrides; the overrides are ignored with an error-severity
log line when they are set after the topic override, and silently at build
time when they were set before it. -/
theorem c5_amended (name t r i : Tether.Str) (agent : Lib.TetherAgent)
    (subscribe : Tether.Str → Int → Except Lib.MqttError Unit)
    (hsub : subscribe t 1 = Except.ok ()) :
    (Options.PlugOptionsBuilder.build
        ((Options.PlugOptionsBuilder.id
          ((Options.PlugOptionsBuilder.role
            ((Options.PlugOptionsBuilder.topic
              (Options.PlugOptionsBuilder.create_output name) t).fst)
            (some r)).fst)
          (some i)).fst)
        agent subscribe).map Options.PlugDefinition.topic = Except.ok t ∧
    (Options.PlugOptionsBuilder.build
        ((Options.PlugOptionsBuilder.topic
          ((Options.PlugOptionsBuilder.id
            ((Options.PlugOptionsBuilder.role
              (Options.PlugOptionsBuilder.create_output name) (some r)).fst)
            (some i)).fst) t).fst)
        agent subscribe).map Options.PlugDefinition.topic = Except.ok t ∧
    (Options.PlugOptionsBuilder.build
        ((Options.PlugOptionsBuilder.id
          ((Options.PlugOptionsBuilder.role
            ((Options.PlugOptionsBuilder.topic
              (Options.PlugOptionsBuilder.create_input name) t).fst)
            (some r)).fst)
          (some i)).fst)
        agent subscribe).map Options.PlugDefinition.topic = Except.ok t ∧
    (Options.PlugOptionsBuilder.build
        ((Options.PlugOptionsBuilder.topic
          ((Options.PlugOptionsBuilder.id
            ((Options.PlugOptionsBuilder.role
              (Options.PlugOptionsBuilder.create_input name) (some r)).fst)
            (some i)).fst) t).fst)
        agent subscribe).map Options.PlugDefinition.topic = Except.ok t := by
  refine ⟨rfl, rfl, ?_, ?_⟩ <;>
  · show (match subscribe t 1 with
        | .ok _ => (Except.ok (Options.PlugDefinition.InputPlug
            (Options.InputPlugDefinition.new name (.Custom t) none)) :
              Except Lib.MqttError Options.PlugDefinition)
        | .error e => .error e).map Options.PlugDefinition.topic = Except.ok t
    rw [hsub]
    rfl

/-- C5 amended witness: the amended statement evaluated at a concrete
builder chain and an always-succeeding subscribe primitive. -/
theorem c5_amended_witness :
    (Options.PlugOptionsBuilder.build
        ((Options.PlugOptionsBuilder.id
          ((Options.PlugOptionsBuilder.role
            ((Options.PlugOptionsBuilder.topic
              (Options.PlugOptionsBuilder.create_output (Tether.str "all"))
              (Tether.str "one/two/three")).fst)
            (some (Tether.str "r2"))).fst)
          (some (Tether.str "i2"))).fst)
        Tether.sample_agent (fun _ _ => Except.ok ())).map Options.PlugDefinition.topic =
      Except.ok (Tether.str "one/two/three") :=
  (c5_amended (Tether.str "all") (Tether.str "one/two/three") (Tether.str "r2")
    (Tether.str "i2") Tether.sample_agent (fun _ _ => Except.ok ()) rfl).1

/-- C6: an output build never invokes the transport, always succeeds, and
with no overrides defaults the topic to role/id/plugName from the own
identity of the agent, the qos to 1 and the retain flag to false — in both
the lib.rs and the plugs/options.rs builder — and in particular the agent
robot/arm1 building the output plug status yields robot/arm1/status with
qos 1 and retain false. -/
theorem c6_output_build_defaults :
    (∀ (agent : Lib.TetherAgent) (name : Tether.Str)
        (subscribe : Tether.Str → Int → Except Lib.MqttError Unit),
      Lib.PlugOptionsBuilder.build (Lib.PlugOptionsBuilder.create_output name)
          agent subscribe =
        Except.ok (.OutputPlugDefinition
          { common := { name := name, topic := Lib.build_topic agent.role agent.id name, qos := 1 },
            retain := false })) ∧
    (∀ (agent : Lib.TetherAgent) (name : Tether.Str)
        (subscribe : Tether.Str → Int → Except Lib.MqttError Unit),
      Options.PlugOptionsBuilder.build (Options.PlugOptionsBuilder.create_output name)
          agent subscribe =
        Except.ok (.OutputPlug
          { name := name,
            topic_spec := .Tether { role := agent.role, id := agent.id, plug_name := name },
            qos := 1, retain := false }) ∧
      Options.OutputPlugDefinition.topic
          { name := name,
            topic_spec := .Tether { role := agent.role, id := agent.id, plug_name := name },
            qos := 1, retain := false } =
        agent.role ++ [Tether.slash] ++ agent.id ++ [Tether.slash] ++ name) ∧
    Lib.PlugOptionsBuilder.build
        (Lib.PlugOptionsBuilder.create_output (Tether.str "status"))
        Tether.sample_agent (fun _ _ => Except.ok ()) =
      Except.ok (.OutputPlugDefinition
        { common := { name := Tether.str "status", topic := Tether.str "robot/arm1/status", qos := 1 },
          retain := false }) ∧
    (Options.PlugOptionsBuilder.build
        (Options.PlugOptionsBuilder.create_output (Tether.str "status"))
        Tether.sample_agent (fun _ _ => Except.ok ())).map Options.PlugDefinition.topic =
      Except.ok (Tether.str "robot/arm1/status") := by
  exact ⟨fun agent name subscribe => rfl, fun agent name subscribe => ⟨rfl, rfl⟩, rfl, rfl⟩

/-- C8 counterexample: a write through the public common_mut method changes
the topic of an already-built plug definition, so a PlugDefinition is not
immutable through the public interface. -/
theorem c8_counterexample :
    Lib.PlugDefinition.topic
        (Lib.PlugDefinition.set_common
          (.InputPlugDefinition
            { common := { name := Tether.str "status", topic := Tether.str "+/+/status", qos := 1 } })
          { name := Tether.str "status", topic := Tether.str "changed/topic/here", qos := 2 }) =
      Tether.str "changed/topic/here" ∧
    Lib.PlugDefinition.topic
        (.InputPlugDefinition
          { common := { name := Tether.str "status", topic := Tether.str "+/+/status", qos := 1 } }) =
      Tether.str "+/+/status" := ⟨rfl, rfl⟩

/-- C8 (amended): the public common_mut method makes the name, topic and qos
of a built PlugDefinition mutable — a write through it installs the new
common data on either variant — while the retain flag of an output plug is
not reachable through it and is preserved. -/
theorem c8_amended (d : Lib.PlugDefinition) (c : Lib.PlugDefinitionCommon) :
    (Lib.PlugDefinition.set_common d c).common = c ∧
    (Lib.PlugDefinition.set_common d c).retain_flag = d.retain_flag := by
  cases d <;> exact ⟨rfl, rfl⟩

/-- C9: for all role, id and plug name free of the slash character, the
topic built by build_topic round-trips through the three parse accessors,
recovering the original segments at indices 0, 1 and 2. -/
theorem c9_roundtrip (role id plug_name : Tether.Str)
    (hr : Tether.slash ∉ role) (hi : Tether.slash ∉ id) (hp : Tether.slash ∉ plug_name) :
    Lib.parse_agent_role (Lib.build_topic role id plug_name) = some role ∧
    Lib.parse_agent_id (Lib.build_topic role id plug_name) = some id ∧
    Lib.parse_plug_name (Lib.build_topic role id plug_name) = some plug_name := by
  have hmem : ∀ l ∈ [role, id, plug_name], Tether.slash ∉ l := by
    intro l hl
    simp only [List.mem_cons, List.not_mem_nil, or_false] at hl
    rcases hl with rfl | rfl | rfl
    exacts [hr, hi, hp]
  have hne : ([role, id, plug_name] : List Tether.Str) ≠ [] := by simp
  have key := List.splitOn_intercalate [role, id, plug_name] Tether.slash hmem hne
  have hbuild : Lib.build_topic role id plug_name =
      [Tether.slash].intercalate [role, id, plug_name] := by
    simp [Lib.build_topic, List.intercalate]
  refine ⟨?_, ?_, ?_⟩ <;>
    simp [Lib.parse_agent_role, Lib.parse_agent_id, Lib.parse_plug_name, hbuild, key]

/-- C9 witness: the round-trip evaluated at the concrete triple robot, arm1,
status. -/
theorem c9_roundtrip_witness :
    Lib.parse_agent_role
        (Lib.build_topic (Tether.str "robot") (Tether.str "arm1") (Tether.str "status")) =
      some (Tether.str "robot") ∧
    Lib.parse_agent_id
        (Lib.build_topic (Tether.str "robot") (Tether.str "arm1") (Tether.str "status")) =
      some (Tether.str "arm1") ∧
    Lib.parse_plug_name
        (Lib.build_topic (Tether.str "robot") (Tether.str "arm1") (Tether.str "status")) =
      some (Tether.str "status") :=
  c9_roundtrip (Tether.str "robot") (Tether.str "arm1") (Tether.str "status")
    (by decide) (by decide) (by decide)

/-- C10: whenever building an agent whose options carry no explicit id
succeeds, the id of the resulting agent is the string any, so an output
plug named P built on it with no overrides gets the topic role/any/P with
qos 1 and retain false. -/
theorem c10_default_id (o : Lib.TetherAgentOptionsBuilder)
    (client_connect : Lib.ConnectOptions → Except Lib.MqttError Unit)
    (agent : Lib.TetherAgent)
    (hid : o.id = none)
    (hbuild : o.build client_connect = Except.ok agent) :
    agent.id = Tether.str "any" ∧
    ∀ (P : Tether.Str) (subscribe : Tether.Str → Int → Except Lib.MqttError Unit),
      Lib.PlugOptionsBuilder.build (Lib.PlugOptionsBuilder.create_output P) agent subscribe =
        Except.ok (.OutputPlugDefinition
          { common := { name := P, topic := Lib.build_topic o.role (Tether.str "any") P, qos := 1 },
            retain := false }) := by
  have hagent : agent =
      { role := o.role, id := Tether.str "any",
        broker_uri := Tether.str "tcp://" ++ o.host.getD (Tether.str "localhost") ++
          Tether.str ":" ++ (Nat.repr (o.port.getD 1883)).data } := by
    unfold Lib.TetherAgentOptionsBuilder.build at hbuild
    rw [hid] at hbuild
    cases hac : o.auto_connect with
    | false =>
      simp only [hac, Bool.false_eq_true, if_false] at hbuild
      exact (Except.ok.inj hbuild).symm
    | true =>
      simp only [hac, if_true] at hbuild
      cases hcon : Lib.connect o client_connect with
      | ok u => rw [hcon] at hbuild; exact (Except.ok.inj hbuild).symm
      | error e => rw [hcon] at hbuild; exact absurd hbuild (by simp)
  subst hagent
  exact ⟨rfl, fun P subscribe => rfl⟩

/-- C10 witness: building from fresh options with role robot (auto-connect
succeeding) yields the id any, and the default output topic for the plug
status on that agent is robot/any/status. -/
theorem c10_default_id_witness :
    ({ role := Tether.str "robot", id := Tether.str "any",
       broker_uri := Tether.str "tcp://localhost:1883" } : Lib.TetherAgent).id =
      Tether.str "any" ∧
    Lib.PlugOptionsBuilder.build
        (Lib.PlugOptionsBuilder.create_output (Tether.str "status"))
        { role := Tether.str "robot", id := Tether.str "any",
          broker_uri := Tether.str "tcp://localhost:1883" }
        (fun _ _ => Except.ok ()) =
      Except.ok (.OutputPlugDefinition
        { common :=
            { name := Tether.str "status"
              topic := Lib.build_topic (Tether.str "robot") (Tether.str "any") (Tether.str "status")
              qos := 1 }
          retain := false }) := by
  have h := c10_default_id (Lib.TetherAgentOptionsBuilder.new (Tether.str "robot"))
    (fun _ => Except.ok ())
    { role := Tether.str "robot", id := Tether.str "any",
      broker_uri := Tether.str "tcp://localhost:1883" }
    rfl rfl
  exact ⟨h.1, h.2 (Tether.str "status") (fun _ _ => Except.ok ())⟩

end Tether
